import Mathlib

/-!
Verification of the reward-state engine and webhook payload validation of a
Telegram bot backend (Netlify Functions migration of an AWS Lambda bot).

The repository ships `test-webhook.js`, whose `validatePayload` function is
embedded here directly from the source. The main function
`netlify/functions/telegram-webhook.js` (Reward Engine and Command
Dispatcher) is referenced by the repository's documentation and tests but its
source is not part of the tree, so those operations are modelled from the
specification's description of them, faithful to its words.
-/

/-! ## JavaScript truthiness helpers

`validatePayload` tests field presence with JavaScript truthiness (`!x`).
A missing field is `undefined` (falsy); a number is falsy exactly when it is
`0`; a string is falsy exactly when it is empty; an object is always truthy.
We model an optional numeric field as `Option Int` and an optional string
field as `Option String`, and define the truthiness tests used by the code. -/

/-- JS truthiness of an optional number: truthy iff present and nonzero. -/
def truthyNum : Option Int → Bool
  | none => false
  | some n => n != 0

/-- JS truthiness of an optional string: truthy iff present and nonempty. -/
def truthyStr : Option String → Bool
  | none => false
  | some s => s != ""

/-! ## Telegram payload shapes (from `test-webhook.js`) -/

/-- A Telegram `from` user object as accessed by `validatePayload`. -/
structure TgUser where
  id : Option Int
  username : Option String
  deriving Repr, DecidableEq

/-- A Telegram `chat` object as accessed by `validatePayload`. -/
structure TgChat where
  id : Option Int
  deriving Repr, DecidableEq

/-- A Telegram `message` object as accessed by `validatePayload`.
The JS field `from` is a reserved word in Lean, so it is written `«from»`. -/
structure TgMessage where
  message_id : Option Int
  date : Option Int
  «from» : Option TgUser
  chat : Option TgChat
  deriving Repr, DecidableEq

/-- A Telegram `callback_query` object as accessed by `validatePayload`. -/
structure TgCallbackQuery where
  id : Option String
  «from» : Option TgUser
  message : Option TgMessage
  data : Option String
  deriving Repr, DecidableEq

/-- An inbound webhook payload: a `message`, a `callback_query`, or neither. -/
structure TgPayload where
  message : Option TgMessage
  callback_query : Option TgCallbackQuery
  deriving Repr, DecidableEq

/-- Embedding of `validatePayload` from `test-webhook.js`.

The JS checks, in order:
* if `payload.message` is present: each of `message_id`, `from`, `chat`,
  `date` must be truthy; then `from.id` and `from.username` must be truthy;
  then `chat.id` must be truthy; otherwise return `false`.
* else if `payload.callback_query` is present: each of `id`, `from`,
  `message`, `data` must be truthy.
* else return `false`.

Objects (`from`, `chat`, `message`) are truthy whenever present; numeric and
string fields are tested by JS truthiness (`0` and `""` are falsy). -/
def validatePayload (payload : TgPayload) : Bool :=
  match payload.message with
  | some m =>
    if !truthyNum m.message_id then false
    else match m.«from» with
      | none => false
      | some f =>
        match m.chat with
        | none => false
        | some c =>
          if !truthyNum m.date then false
          else if !truthyNum f.id || !truthyStr f.username then false
          else if !truthyNum c.id then false
          else true
  | none =>
    match payload.callback_query with
    | some cq =>
      if !truthyStr cq.id then false
      else if cq.«from».isNone then false
      else if cq.message.isNone then false
      else if !truthyStr cq.data then false
      else true
    | none => false

/-! ## Reward Engine data model (modelled from the spec)

The engine source (`netlify/functions/telegram-webhook.js`) is not in the
tree; the repository's README documents its reward rules and the spec
describes the operations. Timestamps: `lastDailyCheckIn` is date-granularity
and is modelled as a calendar-day number; `lastRandomRewardClaim` and the
random-reward clock are modelled in milliseconds. -/

/-- Modelled from the spec: `UserRecord`, one per Telegram user, keyed by
numeric user ID (section 3 DATA MODEL). -/
structure UserRecord where
  id : Nat
  points : Nat
  referralCount : Nat
  referredBy : Option Nat
  dailyStreak : Nat
  lastDailyCheckIn : Option Nat
  lastRandomRewardClaim : Option Nat
  createdAt : Nat
  deriving Repr, DecidableEq

/-- Referral tier names, in increasing order of referral count. -/
inductive Tier where
  | bronze
  | silver
  | gold
  | diamond
  deriving Repr, DecidableEq

/-- Modelled from the spec: tier bracket of a referral count
(README "Referral Tiers"; spec tier table): Bronze 0-4, Silver 5-14,
Gold 15-29, Diamond 30+. -/
def tierOf (n : Nat) : Tier :=
  if n ≤ 4 then .bronze
  else if n ≤ 14 then .silver
  else if n ≤ 29 then .gold
  else .diamond

/-- Per-referral reward of a tier (README "Referral Tiers"). -/
def tierReward : Tier → Nat
  | .bronze => 25000
  | .silver => 30000
  | .gold => 40000
  | .diamond => 50000

/-- Modelled from the spec: per-referral reward for a referrer who already
has `n` attributed referrals. -/
def referralReward (n : Nat) : Nat :=
  tierReward (tierOf n)

/-- Outcome of `ProcessReferral`: a rejection reason, or the updated new-user
record, updated referrer record and awarded amount. -/
inductive ReferralResult where
  | rejected (reason : String)
  | success (newUser : UserRecord) (referrer : UserRecord) (reward : Nat)
  deriving Repr, DecidableEq

/-- Modelled from the spec: `ProcessReferral(newUserRecord, referrerId, now)`
(spec section 4.1). The Store lookup of the referrer is passed in as
`referrerRec` (`none` when the referrer record is absent). Rejections, in
order: "already referred" if `referredBy` is already set; "self-referral" if
`referrerId` equals the new user's own ID; "referrer not found" if the
referrer record is absent. On success: sets `referredBy`, increments the
referrer's `referralCount`, and adds the reward of the referrer's tier at the
count *before* the increment to the referrer's points. -/
def ProcessReferral (newUserRecord : UserRecord) (referrerId : Nat)
    (referrerRec : Option UserRecord) : ReferralResult :=
  if newUserRecord.referredBy.isSome then .rejected "already referred"
  else if referrerId = newUserRecord.id then .rejected "self-referral"
  else match referrerRec with
    | none => .rejected "referrer not found"
    | some r =>
      let reward := referralReward r.referralCount
      .success { newUserRecord with referredBy := some referrerId }
        { r with referralCount := r.referralCount + 1,
                 points := r.points + reward }
        reward

/-- Modelled from the spec: the daily check-in reward for a new streak value:
1000 base, +2000 when the new streak is a multiple of 3, +5000 when it is a
multiple of 7 (README "Daily Rewards"; spec section 4.1). -/
def dailyReward (newStreak : Nat) : Nat :=
  1000 + (if newStreak % 3 = 0 then 2000 else 0)
       + (if newStreak % 7 = 0 then 5000 else 0)

/-- Outcome of `ProcessDailyCheckIn`: a rejection reason, or the updated
record and awarded amount. -/
inductive CheckInResult where
  | rejected (reason : String)
  | success (updated : UserRecord) (reward : Nat)
  deriving Repr, DecidableEq

/-- Modelled from the spec: `ProcessDailyCheckIn(record, now)` (spec section
4.1). `today` is the current calendar-day number; `daysSinceLast` is the
calendar-day difference to `lastDailyCheckIn` (never checked in ⇒ fresh
check-in with streak 1). `daysSinceLast = 0` rejects with "already checked in
today"; `= 1` increments the streak; `> 1` applies streak protection: when
the streak before the break was ≥ 7 the streak becomes `previousStreak + 1`
(a single grace miss, not cumulative), otherwise it resets to 1. The reward
is `dailyReward` of the new streak; the record's `dailyStreak`,
`lastDailyCheckIn` and `points` are updated. The successful outcome for a
given new streak is factored out as `checkInSuccess`. -/
def checkInSuccess (record : UserRecord) (today newStreak : Nat) :
    CheckInResult :=
  .success { record with dailyStreak := newStreak,
                         lastDailyCheckIn := some today,
                         points := record.points + dailyReward newStreak }
    (dailyReward newStreak)

def ProcessDailyCheckIn (record : UserRecord) (today : Nat) : CheckInResult :=
  match record.lastDailyCheckIn with
  | none => checkInSuccess record today 1
  | some last =>
    let daysSinceLast := today - last
    if daysSinceLast = 0 then .rejected "already checked in today"
    else if daysSinceLast = 1 then
      checkInSuccess record today (record.dailyStreak + 1)
    else if 7 ≤ record.dailyStreak then
      checkInSuccess record today (record.dailyStreak + 1)
    else checkInSuccess record today 1

/-- The record as persisted after a `/daily` command: the updated record on
success, the unchanged record on rejection (no partial update; spec section
7). -/
def checkInEffect (record : UserRecord) (today : Nat) : UserRecord :=
  match ProcessDailyCheckIn record today with
  | .success updated _ => updated
  | .rejected _ => record

/-- The random-reward cooldown, in milliseconds (README "Random Rewards":
4-hour cooldown between claims). -/
def fourHoursMs : Nat := 4 * 60 * 60 * 1000

/-- Outcome of `ProcessRandomReward`: a rejection with the remaining cooldown
time, or the updated record, final amount and jackpot flag. -/
inductive RandomResult where
  | rejected (reason : String) (remainingMs : Nat)
  | success (updated : UserRecord) (amount : Nat) (jackpot : Bool)
  deriving Repr, DecidableEq

/-- Modelled from the spec: `ProcessRandomReward(record, now)` (spec section
4.1). The two uniform random draws are passed in explicitly: `baseDraw`
selects the base amount, a uniform integer in [500, 5000], and `jackpotDraw`
decides the 10% jackpot (1 outcome in 10), which multiplies the base by 5.
Cooldown: rejects with "cooldown active" and the remaining time when
`now - lastRandomRewardClaim < 4 hours`; accepts at or after the boundary.
On success `lastRandomRewardClaim` is set to `now` and the post-multiplier
amount is added to `points`. The successful outcome once the cooldown check
has passed is factored out as `randomOutcome`. -/
def randomOutcome (record : UserRecord) (now baseDraw jackpotDraw : Nat) :
    RandomResult :=
  let base := 500 + baseDraw % 4501
  let jackpot := jackpotDraw % 10 == 0
  let amount := if jackpot then base * 5 else base
  .success { record with lastRandomRewardClaim := some now,
                         points := record.points + amount }
    amount jackpot

def ProcessRandomReward (record : UserRecord) (now : Nat)
    (baseDraw jackpotDraw : Nat) : RandomResult :=
  match record.lastRandomRewardClaim with
  | none => randomOutcome record now baseDraw jackpotDraw
  | some last =>
    if now - last < fourHoursMs then
      .rejected "cooldown active" (fourHoursMs - (now - last))
    else randomOutcome record now baseDraw jackpotDraw

/-! ## Command Dispatcher (modelled from the spec) -/

/-- The normalized inbound webhook data as seen by the dispatcher: command
text and user identity may be missing in a malformed payload. -/
structure WebhookInput where
  userId : Option Nat
  chatId : Nat
  command : Option String
  deriving Repr, DecidableEq

/-- The observable outcome of one dispatcher invocation: the HTTP status
acknowledged to the caller, the Store writes performed, and the notifications
sent (chat ID and text). -/
structure DispatchOutcome where
  status : Nat
  storeWrites : List (Nat × UserRecord)
  notifications : List (Nat × String)
  deriving Repr, DecidableEq

/-- Modelled from the spec: the default `UserRecord` created on first
interaction (points=0, referralCount=0, dailyStreak=0). -/
def defaultRecord (uid : Nat) (today : Nat) : UserRecord :=
  { id := uid, points := 0, referralCount := 0, referredBy := none,
    dailyStreak := 0, lastDailyCheckIn := none,
    lastRandomRewardClaim := none, createdAt := today }

/-- The help reply for unknown commands (spec section 4.2). -/
def helpText : String :=
  "Available commands: /start, /refer, /stats, /daily, /reward"

/-- Modelled from the spec: the Command Dispatcher (spec section 4.2).
`store` is the Store read by user ID; `today` is the current calendar day.
A well-formed input (command text and user identity both present) is routed
to the Reward Engine (`/daily` shown here; unknown commands get the help
reply). A malformed input — missing command text or missing user identity —
is silently acknowledged (HTTP 200) with no Store write and no notification,
and the dispatcher, being a total function, never throws. -/
def dispatch (store : Nat → Option UserRecord) (inp : WebhookInput)
    (today : Nat) : DispatchOutcome :=
  match inp.command, inp.userId with
  | some cmd, some uid =>
    let record := (store uid).getD (defaultRecord uid today)
    if cmd = "/daily" then
      match ProcessDailyCheckIn record today with
      | .success updated reward =>
        { status := 200, storeWrites := [(uid, updated)],
          notifications :=
            [(inp.chatId, "Daily reward: " ++ toString reward)] }
      | .rejected reason =>
        { status := 200, storeWrites := [],
          notifications := [(inp.chatId, reason)] }
    else if cmd = "/stats" then
      { status := 200, storeWrites := [],
        notifications :=
          [(inp.chatId, "Points: " ++ toString record.points)] }
    else
      { status := 200, storeWrites := [],
        notifications := [(inp.chatId, helpText)] }
  | _, _ => { status := 200, storeWrites := [], notifications := [] }

/-- The reward paid out by a `/daily` command: `some` of the awarded amount
on success, `none` on rejection (no partial point award; spec section 7). -/
def checkInReward (record : UserRecord) (today : Nat) : Option Nat :=
  match ProcessDailyCheckIn record today with
  | .success _ w => some w
  | .rejected _ => none

/-- Whether a `ProcessRandomReward` outcome is a successful claim. -/
def RandomResult.isSuccess : RandomResult → Bool
  | .success _ _ _ => true
  | .rejected _ _ => false

/-! ## Theorems -/

/-- Inversion of a successful check-in outcome: the updated record carries
the new streak, the reward of that streak, the incremented points and the
updated check-in day. -/
theorem checkInSuccess_inj {record : UserRecord} {today s : Nat}
    {u : UserRecord} {w : Nat}
    (h : checkInSuccess record today s = .success u w) :
    u.dailyStreak = s ∧ w = dailyReward s
    ∧ u.points = record.points + w ∧ u.lastDailyCheckIn = some today := by
  unfold checkInSuccess at h
  simp only [CheckInResult.success.injEq] at h
  obtain ⟨hu, hw⟩ := h
  subst hu
  subst hw
  simp

/-- C9: `validatePayload` accepts a message payload only when
`message.from.username` is present (and nonempty, by JS truthiness); every
message payload carrying a numeric user ID but no username is rejected. -/
theorem validatePayload_requires_username :
    ∀ (p : TgPayload) (m : TgMessage), p.message = some m →
      (validatePayload p = true →
        ∃ f u, m.«from» = some f ∧ f.username = some u ∧ u ≠ "")
      ∧ (∀ f, m.«from» = some f → f.id.isSome = true → f.username = none →
          validatePayload p = false) := by
  intro p m hp
  unfold validatePayload
  rw [hp]
  constructor
  · intro hv
    cases hf : m.«from» with
    | none => simp [hf] at hv
    | some f =>
      cases hc : m.chat with
      | none => simp [hf, hc] at hv
      | some c =>
        simp only [hf, hc] at hv
        split_ifs at hv
        refine ⟨f, ?_⟩
        cases hu : f.username with
        | none => simp_all [truthyStr]
        | some u =>
          refine ⟨u, rfl, rfl, ?_⟩
          intro hemp
          simp_all [truthyStr]
  · intro f hf _ hu
    cases hc : m.chat with
    | none => simp [hf, hc]
    | some c => simp [hf, hc, truthyStr, hu]

/-- Witness for C9: a concrete message payload with numeric user ID
`123456789` but no username is rejected by `validatePayload`. -/
theorem validatePayload_requires_username_witness :
    validatePayload
      ⟨some ⟨some 1, some 1700000000, some ⟨some 123456789, none⟩,
        some ⟨some 123456789⟩⟩, none⟩ = false :=
  (validatePayload_requires_username _ _ rfl).2
    ⟨some 123456789, none⟩ rfl rfl rfl

/-- C10: `validatePayload` tests required fields by JS truthiness, so a
message payload in which `message_id`, `date`, `from.id` or `chat.id` equals
`0` is rejected even though the field is present. -/
theorem validatePayload_zero_fields_rejected :
    ∀ (p : TgPayload) (m : TgMessage), p.message = some m →
      (m.message_id = some 0 → validatePayload p = false)
      ∧ (m.date = some 0 → validatePayload p = false)
      ∧ (∀ f, m.«from» = some f → f.id = some 0 → validatePayload p = false)
      ∧ (∀ c, m.chat = some c → c.id = some 0 → validatePayload p = false) := by
  intro p m hp
  unfold validatePayload
  rw [hp]
  refine ⟨?_, ?_, ?_, ?_⟩
  · intro h
    simp [h, truthyNum]
  · intro h
    cases hf : m.«from» with
    | none => simp [hf]
    | some f =>
      cases hc : m.chat with
      | none => simp [hf, hc]
      | some c => simp [hf, hc, h, truthyNum]
  · intro f hf hid
    cases hc : m.chat with
    | none => simp [hf, hc]
    | some c => simp [hf, hc, hid, truthyNum]
  · intro c hc hid
    cases hf : m.«from» with
    | none => simp [hf, hc]
    | some f => simp [hf, hc, hid, truthyNum]

/-- Witness for C10: a concrete, otherwise well-formed message payload whose
`date` field is the number `0` is rejected by `validatePayload`. -/
theorem validatePayload_zero_fields_rejected_witness :
    validatePayload
      ⟨some ⟨some 1, some 0, some ⟨some 5, some "alice"⟩, some ⟨some 7⟩⟩,
        none⟩ = false :=
  (validatePayload_zero_fields_rejected _ _ rfl).2.1 rfl

/-- C1: the tier lookup maps every referral count to exactly one tier,
contiguously (Bronze 0-4 at 25,000; Silver 5-14 at 30,000; Gold 15-29 at
40,000; Diamond 30+ at 50,000) and monotonically, and a successful
`ProcessReferral` awards the reward of the tier determined by the referrer's
`referralCount` before the increment. -/
theorem tier_lookup_and_referral_reward :
    (∀ n : Nat,
      (n ≤ 4 → tierOf n = .bronze ∧ referralReward n = 25000)
      ∧ (5 ≤ n → n ≤ 14 → tierOf n = .silver ∧ referralReward n = 30000)
      ∧ (15 ≤ n → n ≤ 29 → tierOf n = .gold ∧ referralReward n = 40000)
      ∧ (30 ≤ n → tierOf n = .diamond ∧ referralReward n = 50000))
    ∧ (∀ m n : Nat, m ≤ n → referralReward m ≤ referralReward n)
    ∧ (∀ (newUser : UserRecord) (referrerId : Nat) (r u r' : UserRecord)
        (w : Nat),
        ProcessReferral newUser referrerId (some r) = .success u r' w →
        w = referralReward r.referralCount
        ∧ r'.referralCount = r.referralCount + 1) := by
  refine ⟨?_, ?_, ?_⟩
  · intro n
    refine ⟨?_, ?_, ?_, ?_⟩ <;>
      · intros
        simp only [referralReward, tierOf]
        constructor <;> · split_ifs <;> first | rfl | (exfalso; omega)
  · intro m n hmn
    unfold referralReward tierOf
    split_ifs <;> simp [tierReward] <;> omega
  · intro newUser referrerId r u r' w h
    unfold ProcessReferral at h
    split_ifs at h
    simp only [ReferralResult.success.injEq] at h
    obtain ⟨-, hr', hw⟩ := h
    subst hr'
    exact ⟨hw.symm, rfl⟩

/-- Witness for C1: referral count 7 is Silver at 30,000; the reward is
monotone from count 4 to count 30; a concrete successful `ProcessReferral`
for a referrer with 3 prior referrals awards the Bronze reward 25,000 and
increments the count to 4. -/
theorem tier_lookup_and_referral_reward_witness :
    (tierOf 7 = Tier.silver ∧ referralReward 7 = 30000)
    ∧ referralReward 4 ≤ referralReward 30
    ∧ (25000 = referralReward 3 ∧ 4 = 3 + 1) :=
  ⟨(tier_lookup_and_referral_reward.1 7).2.1 (by decide) (by decide),
   tier_lookup_and_referral_reward.2.1 4 30 (by decide),
   tier_lookup_and_referral_reward.2.2
     ⟨1, 0, 0, none, 0, none, none, 0⟩ 2
     ⟨2, 100, 3, none, 0, none, none, 0⟩
     ⟨1, 0, 0, some 2, 0, none, none, 0⟩
     ⟨2, 25100, 4, none, 0, none, none, 0⟩
     25000 (by decide)⟩

/-- C2: every successful `ProcessDailyCheckIn` awards 1000 base, +2000 when
the new streak is a multiple of 3, +5000 when it is a multiple of 7 (both at
multiples of 21); a streak of 6 checking in the next day becomes 7 with
reward 6000, and a streak of 20 becomes 21 with reward 8000. -/
theorem daily_checkin_reward_formula :
    (∀ (record : UserRecord) (today : Nat) (u : UserRecord) (w : Nat),
        ProcessDailyCheckIn record today = .success u w →
        w = 1000 + (if u.dailyStreak % 3 = 0 then 2000 else 0)
             + (if u.dailyStreak % 7 = 0 then 5000 else 0))
    ∧ (∀ (record : UserRecord) (last : Nat), record.dailyStreak = 6 →
        record.lastDailyCheckIn = some last →
        (checkInEffect record (last + 1)).dailyStreak = 7
        ∧ checkInReward record (last + 1) = some 6000)
    ∧ (∀ (record : UserRecord) (last : Nat), record.dailyStreak = 20 →
        record.lastDailyCheckIn = some last →
        (checkInEffect record (last + 1)).dailyStreak = 21
        ∧ checkInReward record (last + 1) = some 8000) := by
  refine ⟨?_, ?_, ?_⟩
  · intro record today u w h
    unfold ProcessDailyCheckIn at h
    cases hlast : record.lastDailyCheckIn with
    | none =>
      simp only [hlast] at h
      obtain ⟨hs, hw, -, -⟩ := checkInSuccess_inj h
      rw [hw, hs]
      rfl
    | some last =>
      simp only [hlast] at h
      split_ifs at h
      all_goals
        obtain ⟨hs, hw, -, -⟩ := checkInSuccess_inj h
        rw [hw, hs]
        rfl
  · intro record last h6 hlast
    constructor
    · unfold checkInEffect ProcessDailyCheckIn
      simp [hlast, h6, checkInSuccess, Nat.add_sub_cancel_left]
    · unfold checkInReward ProcessDailyCheckIn
      simp [hlast, h6, checkInSuccess, dailyReward, Nat.add_sub_cancel_left]
  · intro record last h20 hlast
    constructor
    · unfold checkInEffect ProcessDailyCheckIn
      simp [hlast, h20, checkInSuccess, Nat.add_sub_cancel_left]
    · unfold checkInReward ProcessDailyCheckIn
      simp [hlast, h20, checkInSuccess, dailyReward, Nat.add_sub_cancel_left]

/-- Witness for C2: a fresh first check-in awards exactly the base 1000, and
a concrete record with streak 6 last checked in on day 10 reaches streak 7
with reward 6000 on day 11. -/
theorem daily_checkin_reward_formula_witness :
    ((1000 : Nat) = 1000 + (if (1 : Nat) % 3 = 0 then 2000 else 0)
        + (if (1 : Nat) % 7 = 0 then 5000 else 0))
    ∧ (checkInEffect ⟨1, 0, 0, none, 6, some 10, none, 0⟩ 11).dailyStreak = 7
    ∧ checkInReward ⟨1, 0, 0, none, 6, some 10, none, 0⟩ 11 = some 6000 :=
  ⟨daily_checkin_reward_formula.1 ⟨1, 0, 0, none, 0, none, none, 0⟩ 5
      ⟨1, 1000, 0, none, 1, some 5, none, 0⟩ 1000 (by decide),
   daily_checkin_reward_formula.2.1
     ⟨1, 0, 0, none, 6, some 10, none, 0⟩ 10 rfl rfl⟩

/-- C3: when more than one calendar day has passed since `lastDailyCheckIn`,
`ProcessDailyCheckIn` keeps a streak that was at least 7 before the break by
setting it to `previousStreak + 1` (one grace miss, applied once, not
cumulatively), and otherwise resets the streak to 1. -/
theorem streak_protection_on_break :
    ∀ (record : UserRecord) (last today : Nat),
      record.lastDailyCheckIn = some last → last + 1 < today →
      ((7 ≤ record.dailyStreak →
          (checkInEffect record today).dailyStreak = record.dailyStreak + 1)
       ∧ (record.dailyStreak < 7 →
          (checkInEffect record today).dailyStreak = 1)) := by
  intro record last today hlast hgap
  have h0 : ¬(today - last = 0) := by omega
  have h1 : ¬(today - last = 1) := by omega
  constructor
  · intro h7
    unfold checkInEffect ProcessDailyCheckIn
    simp [hlast, h0, h1, h7, checkInSuccess]
  · intro hlt
    have h7 : ¬(7 ≤ record.dailyStreak) := by omega
    unfold checkInEffect ProcessDailyCheckIn
    simp [hlast, h0, h1, h7, checkInSuccess]

/-- Witness for C3: a record with streak 7 that last checked in on day 10 and
comes back on day 13 keeps the streak at 8; the same break with streak 3
resets it to 1. -/
theorem streak_protection_on_break_witness :
    (checkInEffect ⟨1, 0, 0, none, 7, some 10, none, 0⟩ 13).dailyStreak = 8
    ∧ (checkInEffect ⟨1, 0, 0, none, 3, some 10, none, 0⟩ 13).dailyStreak
        = 1 :=
  ⟨(streak_protection_on_break ⟨1, 0, 0, none, 7, some 10, none, 0⟩ 10 13
      rfl (by decide)).1 (by decide),
   (streak_protection_on_break ⟨1, 0, 0, none, 3, some 10, none, 0⟩ 10 13
      rfl (by decide)).2 (by decide)⟩

/-- A successful check-in stamps the record with the check-in day. -/
theorem processDailyCheckIn_success_lastDay {record : UserRecord}
    {today : Nat} {u : UserRecord} {w : Nat}
    (h : ProcessDailyCheckIn record today = .success u w) :
    u.lastDailyCheckIn = some today := by
  unfold ProcessDailyCheckIn at h
  cases hlast : record.lastDailyCheckIn with
  | none =>
    simp only [hlast] at h
    exact (checkInSuccess_inj h).2.2.2
  | some last =>
    simp only [hlast] at h
    split_ifs at h <;> exact (checkInSuccess_inj h).2.2.2

/-- C6: after a successful check-in, a second `ProcessDailyCheckIn` on the
same calendar day is rejected with "already checked in today", and the
rejected call leaves the record completely unchanged: no point award, no
streak or timestamp mutation. -/
theorem same_day_second_checkin_rejected :
    ∀ (record : UserRecord) (today : Nat) (u : UserRecord) (w : Nat),
      ProcessDailyCheckIn record today = .success u w →
      ProcessDailyCheckIn u today = .rejected "already checked in today"
      ∧ checkInEffect u today = u ∧ checkInReward u today = none := by
  intro record today u w h
  have hu := processDailyCheckIn_success_lastDay h
  have hrej : ProcessDailyCheckIn u today
      = .rejected "already checked in today" := by
    unfold ProcessDailyCheckIn
    simp [hu]
  refine ⟨hrej, ?_, ?_⟩
  · unfold checkInEffect
    rw [hrej]
  · unfold checkInReward
    rw [hrej]

/-- Witness for C6: a concrete first check-in on day 5 succeeds, and the
repeated call on day 5 is rejected with "already checked in today" leaving
the persisted record and paid reward untouched. -/
theorem same_day_second_checkin_rejected_witness :
    ProcessDailyCheckIn ⟨1, 1000, 0, none, 1, some 5, none, 0⟩ 5
      = .rejected "already checked in today"
    ∧ checkInEffect ⟨1, 1000, 0, none, 1, some 5, none, 0⟩ 5
        = ⟨1, 1000, 0, none, 1, some 5, none, 0⟩
    ∧ checkInReward ⟨1, 1000, 0, none, 1, some 5, none, 0⟩ 5 = none :=
  same_day_second_checkin_rejected ⟨1, 0, 0, none, 0, none, none, 0⟩ 5
    ⟨1, 1000, 0, none, 1, some 5, none, 0⟩ 1000 (by decide)

/-- C4: with a prior claim at time `last`, `ProcessRandomReward` fails
exactly when less than 4 hours have elapsed, in which case it is rejected
with "cooldown active" and the remaining time; a call exactly at the 4-hour
boundary succeeds. -/
theorem random_reward_cooldown_boundary :
    ∀ (record : UserRecord) (now last b j : Nat),
      record.lastRandomRewardClaim = some last → last ≤ now →
      (((ProcessRandomReward record now b j).isSuccess = false
          ↔ now - last < fourHoursMs)
       ∧ (now - last < fourHoursMs →
           ProcessRandomReward record now b j =
             .rejected "cooldown active" (fourHoursMs - (now - last)))
       ∧ (now = last + fourHoursMs →
           (ProcessRandomReward record now b j).isSuccess = true)) := by
  intro record now last b j hlast hle
  refine ⟨?_, ?_, ?_⟩
  · unfold ProcessRandomReward
    simp only [hlast]
    split_ifs with hlt
    · simp [RandomResult.isSuccess, hlt]
    · simp [randomOutcome, RandomResult.isSuccess, hlt]
  · intro hlt
    unfold ProcessRandomReward
    simp [hlast, hlt]
  · intro hb
    have hge : ¬(now - last < fourHoursMs) := by omega
    unfold ProcessRandomReward
    simp [hlast, hge, randomOutcome, RandomResult.isSuccess]

/-- Witness for C4: with a prior claim at time 1000, a call at 1000 + 4h
(14401000 ms) succeeds, while a call at time 2000 is rejected with
"cooldown active" and 14399000 ms remaining. -/
theorem random_reward_cooldown_boundary_witness :
    (ProcessRandomReward ⟨1, 0, 0, none, 0, none, some 1000, 0⟩
        14401000 42 7).isSuccess = true
    ∧ ProcessRandomReward ⟨1, 0, 0, none, 0, none, some 1000, 0⟩ 2000 42 7
        = .rejected "cooldown active" 14399000 :=
  ⟨(random_reward_cooldown_boundary ⟨1, 0, 0, none, 0, none, some 1000, 0⟩
      14401000 1000 42 7 rfl (by decide)).2.2 (by decide),
   (random_reward_cooldown_boundary ⟨1, 0, 0, none, 0, none, some 1000, 0⟩
      2000 1000 42 7 rfl (by decide)).2.1 (by decide)⟩

/-- C7: every successful `ProcessRandomReward` awards an amount in
[500, 5000] without the jackpot and in [2500, 25000] with the ×5 jackpot,
and adds exactly the post-multiplier amount to the points balance. -/
theorem random_reward_amount_range :
    ∀ (record : UserRecord) (now b j : Nat) (u : UserRecord) (a : Nat)
      (jp : Bool),
      ProcessRandomReward record now b j = .success u a jp →
      ((jp = false → 500 ≤ a ∧ a ≤ 5000)
       ∧ (jp = true → 2500 ≤ a ∧ a ≤ 25000)
       ∧ u.points = record.points + a) := by
  intro record now b j u a jp h
  have hmain : randomOutcome record now b j = .success u a jp := by
    unfold ProcessRandomReward at h
    cases hlast : record.lastRandomRewardClaim with
    | none => simpa [hlast] using h
    | some last =>
      simp only [hlast] at h
      split_ifs at h
      exact h
  rw [randomOutcome] at hmain
  simp only [RandomResult.success.injEq] at hmain
  obtain ⟨hu, ha, hjp⟩ := hmain
  subst hu
  have hb : b % 4501 < 4501 := Nat.mod_lt _ (by decide)
  refine ⟨?_, ?_, ?_⟩
  · intro hjpf
    rw [hjp, hjpf] at ha
    simp at ha
    omega
  · intro hjpt
    rw [hjp, hjpt] at ha
    simp at ha
    omega
  · simp [← ha]

/-- Witness for C7: with base draw 0, a non-jackpot claim awards 500 (inside
[500, 5000]) and a jackpot claim awards 2500 (inside [2500, 25000]). -/
theorem random_reward_amount_range_witness :
    ((500 : Nat) ≤ 500 ∧ (500 : Nat) ≤ 5000)
    ∧ ((2500 : Nat) ≤ 2500 ∧ (2500 : Nat) ≤ 25000) :=
  ⟨(random_reward_amount_range ⟨1, 0, 0, none, 0, none, none, 0⟩ 5 0 1
      ⟨1, 500, 0, none, 0, none, some 5, 0⟩ 500 false (by decide)).1 rfl,
   (random_reward_amount_range ⟨1, 0, 0, none, 0, none, none, 0⟩ 5 0 10
      ⟨1, 2500, 0, none, 0, none, some 5, 0⟩ 2500 true (by decide)).2.1 rfl⟩

/-- C5: `ProcessReferral` deterministically rejects with "already referred"
when `referredBy` is already set, with "self-referral" when the referrer ID
equals the new user's own ID, and with "referrer not found" when no referrer
record exists (the checks apply in that order); and a successful call never
decreases the referrer's points. -/
theorem referral_rejections_and_monotone_points :
    ∀ (newUser : UserRecord) (referrerId : Nat)
      (referrerRec : Option UserRecord),
      (newUser.referredBy.isSome = true →
        ProcessReferral newUser referrerId referrerRec
          = .rejected "already referred")
      ∧ (newUser.referredBy = none → referrerId = newUser.id →
        ProcessReferral newUser referrerId referrerRec
          = .rejected "self-referral")
      ∧ (newUser.referredBy = none → referrerId ≠ newUser.id →
        referrerRec = none →
        ProcessReferral newUser referrerId referrerRec
          = .rejected "referrer not found")
      ∧ (∀ (r u r' : UserRecord) (w : Nat),
          referrerRec = some r →
          ProcessReferral newUser referrerId referrerRec = .success u r' w →
          r.points ≤ r'.points) := by
  intro newUser referrerId referrerRec
  refine ⟨?_, ?_, ?_, ?_⟩
  · intro h
    unfold ProcessReferral
    simp [h]
  · intro h hid
    unfold ProcessReferral
    simp [h, hid]
  · intro h hid hrec
    unfold ProcessReferral
    simp [h, hid, hrec]
  · intro r u r' w hrec h
    subst hrec
    unfold ProcessReferral at h
    split_ifs at h
    simp only [ReferralResult.success.injEq] at h
    obtain ⟨-, hr', -⟩ := h
    subst hr'
    simp

/-- Witness for C5: the three rejections at concrete inputs, and a concrete
successful referral taking the referrer's points from 100 to 25100. -/
theorem referral_rejections_and_monotone_points_witness :
    ProcessReferral ⟨1, 0, 0, some 9, 0, none, none, 0⟩ 2 none
      = .rejected "already referred"
    ∧ ProcessReferral ⟨1, 0, 0, none, 0, none, none, 0⟩ 1 none
        = .rejected "self-referral"
    ∧ ProcessReferral ⟨1, 0, 0, none, 0, none, none, 0⟩ 2 none
        = .rejected "referrer not found"
    ∧ (100 : Nat) ≤ 25100 :=
  ⟨(referral_rejections_and_monotone_points
      ⟨1, 0, 0, some 9, 0, none, none, 0⟩ 2 none).1 rfl,
   (referral_rejections_and_monotone_points
      ⟨1, 0, 0, none, 0, none, none, 0⟩ 1 none).2.1 rfl rfl,
   (referral_rejections_and_monotone_points
      ⟨1, 0, 0, none, 0, none, none, 0⟩ 2 none).2.2.1 rfl (by decide) rfl,
   (referral_rejections_and_monotone_points
      ⟨1, 0, 0, none, 0, none, none, 0⟩ 2
      (some ⟨2, 100, 3, none, 0, none, none, 0⟩)).2.2.2
     ⟨2, 100, 3, none, 0, none, none, 0⟩
     ⟨1, 0, 0, some 2, 0, none, none, 0⟩
     ⟨2, 25100, 4, none, 0, none, none, 0⟩
     25000 rfl (by decide)⟩

/-- C8: an inbound payload missing the command text or the user identity is
silently acknowledged (HTTP 200) with no Store write and no notification;
`dispatch` is a total function, so it never throws to the caller. -/
theorem malformed_input_acknowledged_without_effects :
    ∀ (store : Nat → Option UserRecord) (inp : WebhookInput) (today : Nat),
      inp.command = none ∨ inp.userId = none →
      dispatch store inp today =
        { status := 200, storeWrites := [], notifications := [] } := by
  intro store inp today h
  unfold dispatch
  rcases h with h | h
  · simp [h]
  · cases hc : inp.command with
    | none => simp [hc]
    | some cmd => simp [hc, h]

/-- Witness for C8: a concrete payload with a command but no user identity
is acknowledged with status 200, no Store writes and no notifications. -/
theorem malformed_input_acknowledged_without_effects_witness :
    dispatch (fun _ => none) ⟨none, 5, some "/daily"⟩ 0 =
      { status := 200, storeWrites := [], notifications := [] } :=
  malformed_input_acknowledged_without_effects (fun _ => none)
    ⟨none, 5, some "/daily"⟩ 0 (Or.inr rfl)
